import Mathlib

/-!
Verification of the `fix_fn` recursive-closure expander (src/src/lib.rs).

The repository is a single compile-time rewriter, the macro `fix_fn`, with
four arms tried in order:

* arm 1 (lines 62-96): self parameter bare, every additional parameter
  type-ascribed, result type present -- emits the fixed-point expansion
  (a hidden single-method trait `HideFn`, one implementor `HideFnImpl`
  wrapping the user body, and an outer closure over the additional
  parameters only);
* arm 2 (lines 97-102): no result type -- diagnostic
  "Closure passed to fix_fn needs return type!";
* arm 3 (lines 103-109): self parameter type-ascribed, result type
  present -- diagnostic naming the parameter;
* arm 4 (lines 110-116): self bare, result type present, some additional
  parameter bare -- diagnostic
  "All parameters except first need to have an explicit type annotation!".

An input matching no arm is rejected by the host macro engine with its
generic no-rule-matched error, which is not one of the three diagnostics.

Two embeddings are developed below.

The syntactic side models the shape data the arms inspect (qualifier
identifier, parameter list with optional ascriptions, trailing comma,
result-type presence; bodies are taken to be brace blocks, as every arm
with a result type requires) and replays the first-match-wins dispatch.

The semantic side models the emitted code.  Recursion is tied through the
dynamic dispatch of `HideFnImpl::call`, which can diverge, so the call is
indexed by a fuel bound on recursion depth; `none` means the computation
did not finish within that depth.  A user body with `n` additional
parameters is a function from a self-callable and the parameter tuple to
the result; mutation of captured state (the `RefCell` in the
zero-parameter test) is embedded by threading the state through the
callable.
-/

/-- One parameter of the closure-shaped input: its name and its optional
type ascription (`none` when the parameter is bare). -/
structure Param where
  name : String
  ann : Option String
deriving DecidableEq

/-- The closure-shaped input to the expander.  `mov` is the optional single
identifier in the capture-qualifier position (the grammar fragment accepts
any identifier or keyword there, not only `move`); `params` lists all
parameters including the leading self-reference parameter; `trailingComma`
records whether a comma follows the last parameter; `hasRet` records
whether the result-type ascription is present. -/
structure ClosureInput where
  mov : Option String
  params : List Param
  trailingComma : Bool
  hasRet : Bool
deriving DecidableEq

/-- Outcome of running the rewriter on a closure-shaped input: the
expansion arm succeeds, one of the three fixed diagnostics fires, or no
arm matches and the host engine rejects the invocation generically. -/
inductive ExpandResult where
  | expansion : ExpandResult
  | errNeedsReturnType : ExpandResult
  | errSelfAnnotated : String → ExpandResult
  | errParamMissingType : ExpandResult
  | noRuleMatches : ExpandResult
deriving DecidableEq

/-- Arm 1 (lines 62-66): matches when a self parameter is present and
bare, every further parameter carries a type ascription, and a result
type is present.  The qualifier and a trailing comma are accepted but not
inspected. -/
def arm1Matches (inp : ClosureInput) : Bool :=
  inp.hasRet &&
    match inp.params with
    | p :: rest => p.ann.isNone && rest.all (fun q => q.ann.isSome)
    | [] => false

/-- Arm 2 (lines 97-99): its pattern has no result-type arrow and its body
fragment is an expression, so it matches exactly the inputs with no result
type (a `->` cannot begin the expression fragment; parameters there may be
bare or ascribed, and may be absent altogether). -/
def arm2Matches (inp : ClosureInput) : Bool :=
  !inp.hasRet

/-- Arm 3 (lines 103-107): matches when the self parameter carries a type
ascription and a result type is present; the further parameters may be
bare or ascribed. -/
def arm3Matches (inp : ClosureInput) : Bool :=
  inp.hasRet &&
    match inp.params with
    | p :: _ => p.ann.isSome
    | [] => false

/-- Arm 4 (lines 110-113): matches when a self parameter is present and
bare and a result type is present; the further parameters may be bare or
ascribed. -/
def arm4Matches (inp : ClosureInput) : Bool :=
  inp.hasRet &&
    match inp.params with
    | p :: _ => p.ann.isNone
    | [] => false

/-- Name of the leading (self-reference) parameter, used by the arm 3
diagnostic, which stringifies `$self_arg` into its message. -/
def selfParamName (inp : ClosureInput) : String :=
  match inp.params with
  | p :: _ => p.name
  | [] => ""

/-- The rewriter's dispatch: `macro_rules` tries the four arms in source
order and the first matching arm is taken; when none matches the host
engine rejects the invocation. -/
def fix_fn_dispatch (inp : ClosureInput) : ExpandResult :=
  if arm1Matches inp then ExpandResult.expansion
  else if arm2Matches inp then ExpandResult.errNeedsReturnType
  else if arm3Matches inp then ExpandResult.errSelfAnnotated (selfParamName inp)
  else if arm4Matches inp then ExpandResult.errParamMissingType
  else ExpandResult.noRuleMatches

/-- Classifies the three fixed structural diagnostics of the rewriter
(arms 2, 3 and 4); the generic no-rule-matched rejection and the
successful expansion are not among them. -/
def isFixedDiagnostic : ExpandResult → Bool
  | ExpandResult.errNeedsReturnType => true
  | ExpandResult.errSelfAnnotated _ => true
  | ExpandResult.errParamMissingType => true
  | _ => false

/-- The same input with a comma after its last parameter (every arm ends
its parameter list with an optional-comma fragment, so the comma is
consumed without being bound to anything). -/
def withTrailingComma (inp : ClosureInput) : ClosureInput :=
  { inp with trailingComma := true }

/-- The closure stored inside `HideFnImpl` (lines 80-89): given the dyn
reference passed as its first argument -- semantically, the reference is
its `call` method -- it rebinds the self name to a closure forwarding to
that reference and runs the user body under the rebinding. -/
def adapter {α β : Type} (body : (α → Option β) → α → Option β)
    (selfref : α → Option β) (a : α) : Option β :=
  body (fun x => selfref x) a

/-- `HideFnImpl::call` (lines 73-78): invokes the stored closure on the
receiver itself, tying the recursive knot through dynamic dispatch.  The
knot is fuel-indexed: each re-entry of the body consumes one unit, and
`none` means the computation did not finish within the given depth. -/
def hideFnCall {α β : Type} (body : (α → Option β) → α → Option β) :
    Nat → α → Option β
  | 0, _ => none
  | fuel + 1, a => adapter body (hideFnCall body fuel) a

/-- The value a `fix_fn` invocation evaluates to (lines 92-95): a closure
over only the additional parameters that enters the dispatch loop.  The
self-reference parameter does not appear in its signature. -/
def fix_fn {α β : Type} (body : (α → Option β) → α → Option β)
    (fuel : Nat) : α → Option β :=
  fun a => hideFnCall body fuel a

/-- `f` approximates `g`: wherever `f` yields a value, `g` yields the same
value. -/
def approx {α β : Type} (f g : α → Option β) : Prop :=
  ∀ a b, f a = some b → g a = some b

/-- A body functional is monotone when it preserves approximation of the
self-callable.  Every body arising from the macro is of this form: the
body can only use the self-callable by invoking it. -/
def MonoBody {α β : Type} (body : (α → Option β) → α → Option β) : Prop :=
  ∀ f g, approx f g → approx (body f) (body g)

/-- A typed closure specification: the shape data the arms inspect paired
with the denotation of its body (a function of the self-callable and the
additional-parameter tuple). -/
structure TypedSpec (α β : Type) where
  syn : ClosureInput
  body : (α → Option β) → α → Option β

/-- The callable the expansion of a well-formed specification denotes.
The emitted code is built only from the bound fragments (qualifier, names,
types, body), never from the optional trailing comma. -/
def expandSpec {α β : Type} (s : TypedSpec α β) : Nat → α → Option β :=
  fix_fn s.body

/-- Modulus of the u32 machine integers used by the tests. -/
def U32LIM : Nat := 4294967296

/-- u32 multiplication, with the wrap-around of the machine integer made
explicit.  On every input evaluated below the product stays far below the
modulus, so wrapping and checked semantics agree. -/
def u32mul (a b : Nat) : Nat := a * b % U32LIM

/-- Body of the two-parameter test closure (lines 158-166), over the pair
of its u32 arguments:
if y == 1 then x, else if x % 2 == 0 then pow(x*x, x/2), else
x * pow(x, y-1).  The subtraction is `Nat` truncated; on every input
evaluated below y is at least 1, where it agrees with u32 subtraction. -/
def powBody (rec : Nat × Nat → Option Nat) (p : Nat × Nat) : Option Nat :=
  if p.2 = 1 then some p.1
  else if p.1 % 2 = 0 then rec (u32mul p.1 p.1, p.1 / 2)
  else Option.map (fun r => u32mul p.1 r) (rec (p.1, p.2 - 1))

/-- Body of the zero-parameter test closure (lines 128-135).  The closure
takes no arguments and mutates a captured `RefCell` counter, so the
counter's content is threaded through the callable: the argument is the
cell's value on entry and the result pairs the returned i32 with the
cell's value on exit.  The body: if the cell holds 10 return 10, else
increment the cell and recurse. -/
def counterBody (rec : Int → Option (Int × Int)) (cell : Int) :
    Option (Int × Int) :=
  if cell = 10 then some (10, cell)
  else rec (cell + 1)

/-- A pure state-threaded body used as a concrete instance of the
no-mutation case: it returns its argument and leaves the captured state
untouched, never invoking the self-callable. -/
def swapBody : (Nat × Nat → Option (Nat × Nat)) → Nat × Nat → Option (Nat × Nat) :=
  fun _ p => some (p.2, p.1)

/-- A concrete well-formed specification with the self-reference parameter
alone (no additional parameters): its body immediately returns a captured
constant.  Used to exercise the trailing-comma acceptance. -/
def specW : TypedSpec Unit Nat :=
  TypedSpec.mk (ClosureInput.mk none [Param.mk "f" none] false true)
    (fun _ _ => some 7)

/-- A concrete input whose self parameter carries a type ascription and
whose result type is present: rejected by arm 3. -/
def inpSelfAnnRet : ClosureInput :=
  ClosureInput.mk none [Param.mk "f" (some "u32")] false true

/-- A concrete input whose self parameter carries a type ascription and
whose result type is missing: arm 2 matches before arm 3. -/
def inpSelfAnnNoRet : ClosureInput :=
  ClosureInput.mk none [Param.mk "f" (some "u32")] false false

/-- A concrete input with no parameters at all but with a result type: no
arm matches it. -/
def inpNoParams : ClosureInput :=
  ClosureInput.mk none [] false true

theorem dispatch_withTrailingComma (inp : ClosureInput) :
    fix_fn_dispatch (withTrailingComma inp) = fix_fn_dispatch inp := rfl

theorem hideFnCall_mono {α β : Type} (body : (α → Option β) → α → Option β)
    (hb : MonoBody body) :
    ∀ {m n : Nat}, m ≤ n → approx (hideFnCall body m) (hideFnCall body n) := by
  intro m
  induction m with
  | zero =>
    intro n _ a b h
    simp [hideFnCall] at h
  | succ k ih =>
    intro n hmn a b h
    match n, hmn with
    | n' + 1, hmn =>
      have hk : approx (hideFnCall body k) (hideFnCall body n') :=
        ih (Nat.le_of_succ_le_succ hmn)
      have hstep : approx (adapter body (hideFnCall body k))
          (adapter body (hideFnCall body n')) := by
        intro a b h
        exact hb _ _ (fun x y hxy => hk x y hxy) a b h
      exact hstep a b h

theorem powBody_mono : MonoBody powBody := by
  intro f g hfg p b h
  simp only [powBody] at h ⊢
  split_ifs at h ⊢
  · exact h
  · exact hfg _ _ h
  · obtain ⟨r, hr, hb⟩ := Option.map_eq_some'.mp h
    exact Option.map_eq_some'.mpr ⟨r, hfg _ _ hr, hb⟩

theorem counterBody_mono : MonoBody counterBody := by
  intro f g hfg c b h
  simp only [counterBody] at h ⊢
  split_ifs at h ⊢
  · exact h
  · exact hfg _ _ h

/-- C1: the expansion of a well-formed specification is a callable over
only the additional parameters (the self-reference parameter is absent
from `fix_fn`'s argument type), and invoking it runs the body with the
self name bound to a callable that re-enters the same body: unfolding one
invocation at recursion budget `fuel + 1` is exactly the body applied to
the expansion itself at budget `fuel` -- the fixed-point equation
f = F(f), step-indexed because the recursion through `HideFnImpl::call`
need not terminate. -/
theorem fix_fn_unfold {α β : Type} (body : (α → Option β) → α → Option β)
    (fuel : Nat) (a : α) :
    fix_fn body (fuel + 1) a = body (fix_fn body fuel) a := rfl

/-- C2: the callable produced from the two-parameter test body, applied to
(3, 9), returns 19683 = 3^9, at every recursion budget that lets the nine
body re-entries finish. -/
theorem pow_two_param_correct (fuel : Nat) (h : 9 ≤ fuel) :
    fix_fn powBody fuel (3, 9) = some 19683 := by
  have h9 : hideFnCall powBody 9 (3, 9) = some 19683 := by decide
  exact hideFnCall_mono powBody powBody_mono h (3, 9) 19683 h9

theorem pow_two_param_correct_witness :
    9 ≤ 9 ∧ fix_fn powBody 9 (3, 9) = some 19683 :=
  ⟨Nat.le_refl 9, pow_two_param_correct 9 (Nat.le_refl 9)⟩

/-- C3: the callable produced from the zero-parameter test body, invoked
with the captured counter cell holding 0, returns 10, the cell having been
incremented to 10 across the recursive re-entries; this holds at every
recursion budget that lets the eleven body entries finish. -/
theorem counter_zero_param_correct (fuel : Nat) (h : 11 ≤ fuel) :
    fix_fn counterBody fuel 0 = some (10, 10) := by
  have h11 : hideFnCall counterBody 11 0 = some (10, 10) := by decide
  exact hideFnCall_mono counterBody counterBody_mono h 0 (10, 10) h11

theorem counter_zero_param_correct_witness :
    11 ≤ 11 ∧ fix_fn counterBody 11 0 = some (10, 10) :=
  ⟨Nat.le_refl 11, counter_zero_param_correct 11 (Nat.le_refl 11)⟩

/-- C4, counterexample: a closure-shaped input with no parameters at all
but with a result type (such as || -> i32 { 0 }) is rejected -- no
expansion is produced -- yet its rejection is the host engine's generic
no-rule-matched error, not one of the three fixed diagnostics. -/
theorem no_param_rejection_counterexample :
    fix_fn_dispatch inpNoParams = ExpandResult.noRuleMatches ∧
      fix_fn_dispatch inpNoParams ≠ ExpandResult.expansion ∧
      isFixedDiagnostic (fix_fn_dispatch inpNoParams) = false := by
  decide

/-- C4, amended: every rejected closure-shaped input that has at least one
parameter is rejected with exactly one of the three fixed structural
diagnostics (the dispatch is a function of the shape alone, so the
diagnostic is unique, and an error arm emits no partial expansion);
inputs with no parameters but a result type instead fall through to the
host engine's generic rejection. -/
theorem rejection_fixed_diagnostic (inp : ClosureInput)
    (hne : inp.params ≠ []) (hrej : fix_fn_dispatch inp ≠ ExpandResult.expansion) :
    isFixedDiagnostic (fix_fn_dispatch inp) = true := by
  rcases inp with ⟨mv, ps, tc, hr⟩
  cases ps with
  | nil => exact absurd rfl hne
  | cons p rest =>
    cases hr with
    | false =>
      simp [fix_fn_dispatch, arm1Matches, arm2Matches, isFixedDiagnostic]
    | true =>
      cases hann : p.ann with
      | some t =>
        simp [fix_fn_dispatch, arm1Matches, arm2Matches, arm3Matches,
          selfParamName, hann, isFixedDiagnostic]
      | none =>
        by_cases hall : rest.all (fun q => q.ann.isSome) = true
        · exact absurd (by simp [fix_fn_dispatch, arm1Matches, hann, hall]) hrej
        · simp [fix_fn_dispatch, arm1Matches, arm2Matches, arm3Matches,
            arm4Matches, hann, hall, isFixedDiagnostic]

theorem rejection_fixed_diagnostic_witness :
    inpSelfAnnRet.params ≠ [] ∧
      fix_fn_dispatch inpSelfAnnRet ≠ ExpandResult.expansion ∧
      isFixedDiagnostic (fix_fn_dispatch inpSelfAnnRet) = true :=
  ⟨by decide, by decide,
    rejection_fixed_diagnostic inpSelfAnnRet (by decide) (by decide)⟩

/-- C5: every closure-shaped input lacking the result-type ascription is
rejected with the needs-return-type diagnostic (arm 1 requires the arrow,
so no expansion is produced, and arm 2 matches whatever the parameters
look like). -/
theorem missing_ret_diagnostic (inp : ClosureInput)
    (h : inp.hasRet = false) :
    fix_fn_dispatch inp = ExpandResult.errNeedsReturnType := by
  rcases inp with ⟨mv, ps, tc, hr⟩
  cases h
  simp [fix_fn_dispatch, arm1Matches, arm2Matches]

theorem missing_ret_diagnostic_witness :
    ClosureInput.hasRet (ClosureInput.mk none [Param.mk "f" none] false false)
        = false ∧
      fix_fn_dispatch (ClosureInput.mk none [Param.mk "f" none] false false)
        = ExpandResult.errNeedsReturnType :=
  ⟨rfl, missing_ret_diagnostic (ClosureInput.mk none [Param.mk "f" none] false false) rfl⟩

/-- C6, counterexample: an input whose self parameter carries a type
ascription but whose result type is missing (such as |f: u32| 0) is
rejected, but with the needs-return-type diagnostic of arm 2 -- which is
tried first -- not with the diagnostic naming the offending first
parameter, contrary to the claim's unconditional statement. -/
theorem self_ann_precedence_counterexample :
    fix_fn_dispatch inpSelfAnnNoRet = ExpandResult.errNeedsReturnType ∧
      ExpandResult.errNeedsReturnType ≠ ExpandResult.errSelfAnnotated "f" := by
  decide

/-- C6, amended: every closure-shaped input whose self (first) parameter
carries a type ascription and which does carry a result-type ascription
is rejected with the diagnostic naming the offending parameter and
stating the first parameter may not have a type annotation. -/
theorem self_ann_diagnostic (inp : ClosureInput) (p : Param)
    (rest : List Param) (t : String) (hp : inp.params = p :: rest)
    (hann : p.ann = some t) (hret : inp.hasRet = true) :
    fix_fn_dispatch inp = ExpandResult.errSelfAnnotated p.name := by
  rcases inp with ⟨mv, ps, tc, hr⟩
  simp only at hp hret
  cases hp
  cases hret
  simp [fix_fn_dispatch, arm1Matches, arm2Matches, arm3Matches,
    selfParamName, hann]

theorem self_ann_diagnostic_witness :
    inpSelfAnnRet.params = [Param.mk "f" (some "u32")] ∧
      inpSelfAnnRet.hasRet = true ∧
      fix_fn_dispatch inpSelfAnnRet = ExpandResult.errSelfAnnotated "f" :=
  ⟨rfl, rfl,
    self_ann_diagnostic inpSelfAnnRet (Param.mk "f" (some "u32")) [] "u32"
      rfl rfl rfl⟩

/-- C7: every closure-shaped input whose self parameter is bare, which
carries a result type, and in which some additional parameter lacks its
type ascription, is rejected with the diagnostic stating that all
parameters except the first need an explicit type annotation (arm 1 fails
on the bare additional parameter, arms 2 and 3 do not match, arm 4
matches). -/
theorem param_missing_type_diagnostic (inp : ClosureInput) (p q : Param)
    (rest : List Param) (hp : inp.params = p :: rest) (hself : p.ann = none)
    (hret : inp.hasRet = true) (hq : q ∈ rest) (hqann : q.ann = none) :
    fix_fn_dispatch inp = ExpandResult.errParamMissingType := by
  rcases inp with ⟨mv, ps, tc, hr⟩
  simp only at hp hret
  cases hp
  cases hret
  have hall : rest.all (fun r => r.ann.isSome) = false := by
    cases hcase : rest.all (fun r => r.ann.isSome) with
    | false => rfl
    | true =>
      have := List.all_eq_true.mp hcase q hq
      rw [hqann] at this
      simp at this
  simp [fix_fn_dispatch, arm1Matches, arm2Matches, arm3Matches,
    arm4Matches, hself, hall]

theorem param_missing_type_diagnostic_witness :
    fix_fn_dispatch
        (ClosureInput.mk none [Param.mk "f" none, Param.mk "x" none] false true)
      = ExpandResult.errParamMissingType :=
  param_missing_type_diagnostic
    (ClosureInput.mk none [Param.mk "f" none, Param.mk "x" none] false true)
    (Param.mk "f" none) (Param.mk "x" none) [Param.mk "x" none]
    rfl rfl rfl (List.mem_singleton.mpr rfl) rfl

/-- C8: for a produced callable over state-threaded captured data whose
body never mutates that state (every converging invocation returns the
state it was given), two invocations in sequence with identical argument
values yield identical results: the second call starts from the state the
first left behind, which the no-mutation hypothesis forces to be the
starting state. -/
theorem pure_invocations_agree {σ γ β : Type}
    (body : (σ × γ → Option (β × σ)) → σ × γ → Option (β × σ))
    (hpure : ∀ fuel s a b s2, fix_fn body fuel (s, a) = some (b, s2) → s2 = s)
    (fuel : Nat) (s : σ) (a : γ) (b : β) (s1 : σ)
    (h1 : fix_fn body fuel (s, a) = some (b, s1)) :
    fix_fn body fuel (s1, a) = some (b, s1) := by
  have hs : s1 = s := hpure fuel s a b s1 h1
  cases hs
  exact h1

theorem pure_invocations_agree_witness :
    fix_fn swapBody 1 ((5 : Nat), (3 : Nat)) = some ((3 : Nat), (5 : Nat)) :=
  pure_invocations_agree swapBody
    (by
      intro fuel s a b s2 h
      cases fuel with
      | zero => simp [fix_fn, hideFnCall] at h
      | succ n =>
        simp [fix_fn, hideFnCall, adapter, swapBody] at h
        exact h.2.symm)
    1 5 3 3 5 (by decide)

/-- C9: a well-formed specification with a trailing comma after its last
parameter (the case of the self-reference parameter alone included) is
accepted exactly like the same specification without the comma, and the
two expansions denote the same callable: every arm consumes the comma
through its optional-comma fragment without binding it, so the emitted
code is built from identical fragments. -/
theorem trailing_comma_equiv {α β : Type} (s : TypedSpec α β)
    (h : fix_fn_dispatch s.syn = ExpandResult.expansion) :
    fix_fn_dispatch (withTrailingComma s.syn) = ExpandResult.expansion ∧
      expandSpec (TypedSpec.mk (withTrailingComma s.syn) s.body)
        = expandSpec s := by
  refine ⟨?_, rfl⟩
  rw [dispatch_withTrailingComma]
  exact h

theorem trailing_comma_equiv_witness :
    fix_fn_dispatch specW.syn = ExpandResult.expansion ∧
      fix_fn_dispatch (withTrailingComma specW.syn) = ExpandResult.expansion ∧
      expandSpec (TypedSpec.mk (withTrailingComma specW.syn) specW.body)
        = expandSpec specW :=
  ⟨rfl, (trailing_comma_equiv specW rfl).1, (trailing_comma_equiv specW rfl).2⟩

/-- C10: the capture-qualifier position accepts any single identifier, not
only the move keyword (the grammar fragment there matches any identifier
or keyword): for an otherwise well-formed input whose qualifier is an
arbitrary identifier, the structural validation raises none of the three
diagnostics and the dispatch emits the expansion, any failure caused by a
stray qualifier being left to the host language's later checking of the
emitted code. -/
theorem qualifier_any_ident (q : String) :
    fix_fn_dispatch
        (ClosureInput.mk (some q)
          [Param.mk "f" none, Param.mk "x" (some "u32")] false true)
      = ExpandResult.expansion ∧
      isFixedDiagnostic
        (fix_fn_dispatch
          (ClosureInput.mk (some q)
            [Param.mk "f" none, Param.mk "x" (some "u32")] false true))
        = false :=
  ⟨rfl, rfl⟩
